import Mathlib

/-!
Verification of the Haier hOn air-conditioner integration
(`src/lib/HonApi.js`, `src/drivers/aircon/device.js`,
`src/drivers/aircon/driver.js`) against its specification.

The JavaScript is shallowly embedded: JS objects used as parameter maps
become association lists read through `getP`, JS property assignment
becomes `setP`, capability values (which may be `null`) become `Option`,
and the `fetch`-based control flow of `_apiRequest` becomes a pure
function over the sequence of responses it would observe.
-/

/-! ### JavaScript value helpers -/

/-- JS `String.prototype.toUpperCase` on the ASCII program identifiers
used by this app, modelled on the character list. -/
def jsToUpper (s : String) : String := String.mk (s.data.map Char.toUpper)

/-- JS `a || d` for a possibly-`null` string `a`: `null`/`undefined` and
the empty string are falsy and yield the default. -/
def jsOrString (a : Option String) (d : String) : String :=
  match a with
  | none => d
  | some s => if s = "" then d else s

/-- JS `a || d` for a possibly-`null` number `a`: `null`/`undefined` and
`0` are falsy and yield the default. -/
def jsOrNum (a : Option ℚ) (d : ℚ) : ℚ :=
  match a with
  | none => d
  | some q => if q = 0 then d else q

/-- JS truthiness of a possibly-`null` string (`if (refreshToken)`):
`null`/`undefined` and the empty string are falsy. -/
def jsTruthy (a : Option String) : Bool :=
  match a with
  | none => false
  | some s => ¬ (s = "")

/-- Digit-string parsing used to model JS `Number()`. -/
def parseDigits (l : List Char) : Option Nat :=
  if l = [] then none
  else if l.all Char.isDigit then
    some (l.foldl (fun n c => n * 10 + (c.toNat - '0'.toNat)) 0)
  else none

/-- JS `Number()` on the (optionally signed) integer-valued wire strings
used by this app; `none` stands for `NaN`. `Number("")` is `0` in JS. -/
def jsNumber (s : String) : Option Int :=
  if s = "" then some 0
  else
    match s.data with
    | '-' :: rest => (parseDigits rest).map (fun n => -(n : Int))
    | l => (parseDigits l).map (fun n => (n : Int))

/-- JS `Math.round`: rounds half toward positive infinity. -/
def jsRound (q : ℚ) : Int := ⌊q + 1 / 2⌋

/-! ### Parameter maps (JS objects holding wire parameters) -/

/-- A JS object holding string-valued wire parameters, read through
`getP`. -/
abbrev Params := List (String × String)

/-- JS property read `params[k]`; `none` is `undefined`. -/
def getP (ps : Params) (k : String) : Option String :=
  match ps with
  | [] => none
  | (k', v) :: rest => if k' = k then some v else getP rest k

/-- JS property write `params[k] = v`, observed through `getP` (the new
binding shadows any earlier one). -/
def setP (ps : Params) (k v : String) : Params := (k, v) :: ps

/-! ### Mode / speed / program tables (`src/drivers/aircon/device.js`) -/

/-- Table `HON_TO_HVAC_MODE`: wire `machMode` value to Homey HVAC mode;
indexing with any other value (including NaN) is `undefined`. -/
def HON_TO_HVAC_MODE (v : Int) : Option String :=
  if v = 0 then some "auto"
  else if v = 1 then some "cool"
  else if v = 2 then some "dry"
  else if v = 3 then some "dry"
  else if v = 4 then some "heat"
  else if v = 5 then some "fan_only"
  else if v = 6 then some "fan_only"
  else none

/-- Table `HVAC_MODE_TO_HON`: Homey HVAC mode to wire `machMode` value. -/
def HVAC_MODE_TO_HON (m : String) : Option Int :=
  if m = "auto" then some 0
  else if m = "cool" then some 1
  else if m = "heat" then some 4
  else if m = "dry" then some 2
  else if m = "fan_only" then some 6
  else if m = "10_heating" then some 4
  else none

/-- Table `FAN_SPEED_TO_HON`: Homey fan speed to wire `windSpeed` value. -/
def FAN_SPEED_TO_HON (m : String) : Option Int :=
  if m = "high" then some 1
  else if m = "medium" then some 2
  else if m = "low" then some 3
  else if m = "auto" then some 5
  else none

/-- Table `HVAC_MODE_TO_PROGRAM`: Homey HVAC mode to hOn program name. -/
def HVAC_MODE_TO_PROGRAM (m : String) : Option String :=
  if m = "auto" then some "IOT_AUTO"
  else if m = "cool" then some "IOT_COOL"
  else if m = "heat" then some "IOT_HEAT"
  else if m = "dry" then some "IOT_DRY"
  else if m = "fan_only" then some "IOT_FAN"
  else if m = "10_heating" then some "IOT_10_HEATING"
  else none

/-! ### Outgoing commands (`HonApi.sendCommand`) -/

/-- The fields of the `sendCommand` envelope that the device-level
operations determine: the command name, the program name (present only
on `startProgram` envelopes, upper-cased by `sendCommand`), and the
`parameters` block. -/
structure Command where
  commandName : String
  programName : Option String
  parameters : Params

/-- Source `HonApi.sendCommand`: the envelope carries `programName` (defaulted
to `iot_auto` and upper-cased) exactly when the command is
`startProgram`. -/
def sendCommand (commandName : String) (parameters : Params)
    (programName : Option String) : Command :=
  { commandName := commandName
    programName :=
      if commandName = "startProgram" then
        some (jsToUpper (programName.getD "iot_auto"))
      else none
    parameters := parameters }

/-! ### Device command paths (`src/drivers/aircon/device.js`) -/

/-- Source `AirconDevice._setOnOff`. Turning on issues `startProgram` with the
current mode's program, mandatory parameters plus `onOffStatus`/`machMode`;
turning off issues `stopProgram` with mandatory parameters plus
`onOffStatus = "0"`. `currentModeCap` is `getCapabilityValue('hon_hvac_mode')`. -/
def setOnOff (value : Bool) (mandatoryParams : Params)
    (currentModeCap : Option String) : Command :=
  if value then
    let currentMode := jsOrString currentModeCap "auto"
    let programName := (HVAC_MODE_TO_PROGRAM currentMode).getD "IOT_AUTO"
    let machMode := (HVAC_MODE_TO_HON currentMode).getD 0
    let params := setP (setP mandatoryParams "onOffStatus" "1")
      "machMode" (toString machMode)
    sendCommand "startProgram" params (some programName)
  else
    let params := setP mandatoryParams "onOffStatus" "0"
    sendCommand "stopProgram" params none

/-- Source `AirconDevice._setTargetTemperature`. Rejects the request while the
anti-freeze mode is active, otherwise clamps the value to 16..30 and
issues a `settings` command. -/
def setTargetTemperature (mandatoryParams : Params)
    (currentModeCap : Option String) (fanSpeedCap : Option String)
    (value : ℚ) : Except String Command :=
  let currentMode := jsOrString currentModeCap "auto"
  if currentMode = "10_heating" then
    .error "Temperature is fixed at 10°C in anti-freeze mode"
  else
    let value := if value < 16 then 16 else value
    let value := if value > 30 then 30 else value
    let machMode := (HVAC_MODE_TO_HON currentMode).getD 0
    let currentFanSpeed := jsOrString fanSpeedCap "auto"
    let windSpeed := (FAN_SPEED_TO_HON currentFanSpeed).getD 4
    let params := setP (setP (setP (setP mandatoryParams
      "onOffStatus" "1")
      "tempSel" (toString (jsRound value)))
      "machMode" (toString machMode))
      "windSpeed" (toString windSpeed)
    .ok (sendCommand "settings" params none)

/-- Source `AirconDevice._setHvacMode`. Anti-freeze starts the
`IOT_10_HEATING` program with `machMode = "4"` and the anti-freeze flag
set; every other known mode starts its program with the flag cleared. -/
def setHvacMode (value : String) (mandatoryParams : Params)
    (targetTempCap : Option ℚ) (fanSpeedCap : Option String) :
    Except String Command :=
  if value = "10_heating" then
    let params := setP (setP (setP mandatoryParams
      "onOffStatus" "1")
      "machMode" "4")
      "10degreeHeatingStatus" "1"
    .ok (sendCommand "startProgram" params (some "IOT_10_HEATING"))
  else
    match HVAC_MODE_TO_HON value with
    | none => .error ("Unknown HVAC mode: " ++ value)
    | some machMode =>
      let currentTemp := jsOrNum targetTempCap 16
      let currentTemp := if currentTemp < 16 then 16 else currentTemp
      let currentFanSpeed := jsOrString fanSpeedCap "auto"
      let windSpeed := (FAN_SPEED_TO_HON currentFanSpeed).getD 5
      let programName := (HVAC_MODE_TO_PROGRAM value).getD "IOT_AUTO"
      let params := setP (setP (setP (setP (setP mandatoryParams
        "onOffStatus" "1")
        "machMode" (toString machMode))
        "tempSel" (toString (jsRound currentTemp)))
        "windSpeed" (toString windSpeed))
        "10degreeHeatingStatus" "0"
      .ok (sendCommand "startProgram" params (some programName))

/-- The network commands a fallible device operation issues: a throw
happens before `api.sendCommand`, so an error issues nothing. -/
def issuedCommands (r : Except String Command) : List Command :=
  match r with
  | .error _ => []
  | .ok c => [c]

/-- Read one parameter of the command an operation produced. -/
def sentParam (r : Except String Command) (k : String) : Option String :=
  match r with
  | .error _ => none
  | .ok c => getP c.parameters k

/-! ### Polled state mapping (`_extractValue` / `_updateCapabilities`) -/

/-- A wire value in a polled state: either a bare scalar or a record
carrying the scalar under `parNewVal` or `parValue`. -/
inductive WireVal where
  | bare (v : String)
  | record (parNewVal : Option String) (parValue : Option String)
deriving DecidableEq

/-- Source `AirconDevice._extractValue`: prefer `parNewVal`, then `parValue`;
`none` means the raw value is an object with neither field (whose
numeric coercion is NaN). -/
def extractValue : WireVal → Option String
  | .bare v => some v
  | .record (some v) _ => some v
  | .record none (some v) => some v
  | .record none none => none

/-- Evaluation of `Number(this._extractValue(state[k]))` for a possibly-absent state
field; `none` stands for NaN (both `Number(undefined)` and the numeric
coercion of a fieldless record). -/
def extractNum (v : Option WireVal) : Option Int :=
  match v with
  | none => none
  | some w =>
    match extractValue w with
    | none => none
    | some s => jsNumber s

/-- The polled-state fields `_updateCapabilities` reads for the target
temperature and HVAC mode capabilities. `tenDegreeHeatingStatus` embeds
the wire field `10degreeHeatingStatus`. -/
structure PolledState where
  machMode : Option WireVal
  tempSel : Option WireVal
  tenDegreeHeatingStatus : Option WireVal

/-- The test `Number(this._extractValue(state['10degreeHeatingStatus'])) === 1`. -/
def is10Heating (st : PolledState) : Bool :=
  extractNum st.tenDegreeHeatingStatus = some 1

/-- Target-temperature capability after `_updateCapabilities`: `10` when
anti-freeze is active, else the numeric `tempSel` when it is present and
at least 16, else the previous value is kept. -/
def reportedTargetTemperature (st : PolledState) (prev : Option Int) :
    Option Int :=
  if is10Heating st then some 10
  else
    match st.tempSel with
    | none => prev
    | some w =>
      match extractNum (some w) with
      | none => prev
      | some t => if 16 ≤ t then some t else prev

/-- HVAC-mode capability after `_updateCapabilities` (computed only when
`machMode` is present): anti-freeze overrides the mode table; an
unrecognized wire value falls back to `auto`. -/
def reportedHvacMode (st : PolledState) : Option String :=
  match st.machMode with
  | none => none
  | some w =>
    if is10Heating st then some "10_heating"
    else some (((extractNum (some w)).bind HON_TO_HVAC_MODE).getD "auto")

/-! ### MAC canonicalization (`rawId.split('#')[0]`) -/

/-- Canonicalization `mac.split('#')[0]` in `AirconDevice.onInit` and
`AirconDriver.onPairListDevices`: the prefix before the first `#`, the
whole string when no `#` occurs. -/
def canonicalMac (s : String) : String :=
  String.mk (s.data.takeWhile (fun c => !(c = '#')))

/-! ### Token state (`HonApi` fields and `setTokens`) -/

/-- Constant `TOKEN_LIFETIME_MS = 8 * 60 * 60 * 1000`. -/
def TOKEN_LIFETIME_MS : Int := 8 * 60 * 60 * 1000

/-- The `HonApi` token fields touched by `setTokens`. -/
structure TokenState where
  accessToken : Option String
  idToken : Option String
  refreshToken : Option String
  tokenExpiresAt : Option Int
deriving DecidableEq

/-- Source `HonApi.setTokens(accessToken, idToken, refreshToken = null)` at
time `now` (`Date.now()`): overwrites access/id tokens, replaces the
refresh token only when the argument is truthy, and sets the fixed
expiry. -/
def setTokens (s : TokenState) (accessToken idToken : String)
    (refreshToken : Option String) (now : Int) : TokenState :=
  { accessToken := some accessToken
    idToken := some idToken
    refreshToken := if jsTruthy refreshToken then refreshToken
                    else s.refreshToken
    tokenExpiresAt := some (now + TOKEN_LIFETIME_MS) }

/-! ### `_apiRequest` retry control flow -/

/-- A `fetch` response as `_apiRequest` observes it: status, text body,
and the parsed JSON payload (abstract). -/
structure Response where
  status : Nat
  body : String
  json : String
deriving DecidableEq

/-- The test `response.ok`: status in the range 200..299. -/
def responseOk (r : Response) : Bool := 200 ≤ r.status ∧ r.status < 300

/-- The test `response.status === 401 || response.status === 403`. -/
def isAuthFailure (r : Response) : Bool := r.status = 401 ∨ r.status = 403

/-- How one `_apiRequest` call ends. -/
inductive ApiOutcome where
  | success (json : String)
  | refreshError (msg : String)
  | authFailedAfterRefresh (status : Nat) (body : String)
  | apiError (status : Nat) (body : String)
deriving DecidableEq

/-- Observable effects of one `_apiRequest` call: its outcome, how many
`doFetch` calls it issued, how many `_safeRefresh` invocations it made,
and the `_authenticated` flag it leaves behind. -/
structure ApiRunResult where
  outcome : ApiOutcome
  fetches : Nat
  refreshes : Nat
  authenticated : Bool
deriving DecidableEq

/-- Source `HonApi._apiRequest` after `_ensureAuthenticated` succeeded (leaving
`_authenticated = auth0`), given the response `r1` to the first fetch,
whether the reactive `_safeRefresh` would succeed (`refreshOk`, with
failure message `refreshMsg`), and the response `r2` to the retry. -/
def apiRequest (auth0 : Bool) (r1 : Response) (refreshOk : Bool)
    (refreshMsg : String) (r2 : Response) : ApiRunResult :=
  if isAuthFailure r1 then
    if ¬ refreshOk then
      { outcome := .refreshError refreshMsg
        fetches := 1, refreshes := 1, authenticated := false }
    else if isAuthFailure r2 then
      { outcome := .authFailedAfterRefresh r2.status r2.body
        fetches := 2, refreshes := 1, authenticated := false }
    else if ¬ responseOk r2 then
      { outcome := .apiError r2.status r2.body
        fetches := 2, refreshes := 1, authenticated := auth0 }
    else
      { outcome := .success r2.json
        fetches := 2, refreshes := 1, authenticated := auth0 }
  else if ¬ responseOk r1 then
    { outcome := .apiError r1.status r1.body
      fetches := 1, refreshes := 0, authenticated := auth0 }
  else
    { outcome := .success r1.json
      fetches := 1, refreshes := 0, authenticated := auth0 }

/-! ### Single-flight refresh (`_safeRefresh` / `_refreshAccessToken`)

JavaScript is single-threaded with cooperative scheduling: the body of
`_safeRefresh` contains no `await` between reading and writing
`this._refreshPromise`, so each call is one atomic step of the event
loop, and the settling of the in-flight refresh (which runs the
`.finally` handler) is another. -/

/-- Guard state: `_refreshPromise` holds the id of the in-flight refresh
operation, `nextId` numbers successive refresh operations, and `started`
counts refresh operations begun (each beginning a network refresh
exchange). -/
structure RefreshGuardState where
  refreshPromise : Option Nat
  nextId : Nat
  started : Nat
deriving DecidableEq

/-- One `_safeRefresh` call: return the in-flight promise if present,
else start a new refresh operation and install its promise. The second
component is the promise the caller awaits. -/
def safeRefresh (s : RefreshGuardState) : RefreshGuardState × Nat :=
  match s.refreshPromise with
  | some p => (s, p)
  | none =>
    ({ refreshPromise := some s.nextId
       nextId := s.nextId + 1
       started := s.started + 1 }, s.nextId)

/-- The finalizer (`.finally`) handler of the refresh promise: clears
`_refreshPromise` whether the refresh fulfilled or rejected. -/
def settleRefresh (s : RefreshGuardState) (_ok : Bool) : RefreshGuardState :=
  { s with refreshPromise := none }

/-- Run of `n` consecutive `_safeRefresh` calls (concurrent callers interleaved
before the refresh settles); returns the final state and the promise
each caller awaits. -/
def safeRefreshCalls : RefreshGuardState → Nat → RefreshGuardState × List Nat
  | s, 0 => (s, [])
  | s, n + 1 =>
    let r := safeRefresh s
    let rest := safeRefreshCalls r.1 n
    (rest.1, r.2 :: rest.2)

/-- Network calls visible during a refresh. -/
inductive NetCall where
  | refreshExchange
  | tokenExchange
deriving DecidableEq

/-- How one `_refreshAccessToken` run can end. -/
inductive RefreshOutcome where
  | refreshHttpError
  | cognitoError
  | success
deriving DecidableEq

/-- The network calls one `_refreshAccessToken` run issues: one POST to
the OAuth token endpoint, then (unless that failed) one token-exchange
call via `_getCognitoToken`. -/
def refreshAccessTokenCalls : RefreshOutcome → List NetCall
  | .refreshHttpError => [.refreshExchange]
  | .cognitoError => [.refreshExchange, .tokenExchange]
  | .success => [.refreshExchange, .tokenExchange]

/-! ### Helper lemmas -/

/-- Rounding a clamped integer: `Math.round` after the two clamping
branches of `_setTargetTemperature` yields `min 30 (max 16 t)`. -/
lemma jsRound_intCast (n : ℤ) : jsRound (n : ℚ) = n := by
  unfold jsRound
  rw [add_comm, Int.floor_add_int]
  norm_num

lemma takeWhile_no_hash (l : List Char) (h : '#' ∉ l) :
    l.takeWhile (fun c => !(c = '#')) = l := by
  induction l with
  | nil => rfl
  | cons a t ih =>
    have ha : ¬ (a = '#') := fun e => h (by simp [e])
    have ht : '#' ∉ t := fun m => h (List.mem_cons_of_mem _ m)
    simp [List.takeWhile_cons, ha, ih ht]

lemma takeWhile_hash_append (l r : List Char) (h : '#' ∉ l) :
    (l ++ '#' :: r).takeWhile (fun c => !(c = '#')) = l := by
  induction l with
  | nil => simp [List.takeWhile_cons]
  | cons a t ih =>
    have ha : ¬ (a = '#') := fun e => h (by simp [e])
    have ht : '#' ∉ t := fun m => h (List.mem_cons_of_mem _ m)
    simp [List.takeWhile_cons, ha, ih ht]

/-- While a refresh is in flight, any number of `_safeRefresh` calls
leave the guard state unchanged and hand every caller the same
in-flight promise. -/
lemma safeRefreshCalls_inflight (s : RefreshGuardState) (p n : ℕ)
    (h : s.refreshPromise = some p) :
    safeRefreshCalls s n = (s, List.replicate n p) := by
  induction n with
  | zero => rfl
  | succ m ih =>
    simp [safeRefreshCalls, safeRefresh, h, ih, List.replicate]

/-! ### Claims -/

/-- C7: for every wire HVAC-mode value `v` in `0..6`, mapping wire to
capability and back is the identity, except that `3` maps to `dry`
which maps back to `2`, and `5` maps to `fan_only` which maps back
to `6`. -/
theorem c7_mode_roundtrip (v : ℤ) (h0 : 0 ≤ v) (h6 : v ≤ 6) :
    (HON_TO_HVAC_MODE v).bind HVAC_MODE_TO_HON =
      some (if v = 3 then 2 else if v = 5 then 6 else v) := by
  interval_cases v <;> decide

/-- Witness for C7 at the alias value `v = 3` and the identity value
`v = 1`. -/
theorem c7_mode_roundtrip_witness :
    ((0 : ℤ) ≤ 3 ∧ (3 : ℤ) ≤ 6 ∧
      (HON_TO_HVAC_MODE 3).bind HVAC_MODE_TO_HON = some 2) ∧
    ((0 : ℤ) ≤ 1 ∧ (1 : ℤ) ≤ 6 ∧
      (HON_TO_HVAC_MODE 1).bind HVAC_MODE_TO_HON = some 1) := by
  refine ⟨⟨by norm_num, by norm_num, ?_⟩, ⟨by norm_num, by norm_num, ?_⟩⟩
  · have h := c7_mode_roundtrip 3 (by norm_num) (by norm_num)
    simpa using h
  · have h := c7_mode_roundtrip 1 (by norm_num) (by norm_num)
    simpa using h

/-- C6: the stop (power-off) command sends exactly the mandatory
parameter set plus `onOffStatus = "0"`: it is a `stopProgram` envelope
with no program name, and every other parameter reads exactly as in the
mandatory set (in particular no mode, fan-speed or temperature field is
added). -/
theorem c6_stop_command_frame (mandatoryParams : Params)
    (modeCap : Option String) (k : String)
    (hk : k ≠ "onOffStatus") :
    (setOnOff false mandatoryParams modeCap).commandName = "stopProgram" ∧
    (setOnOff false mandatoryParams modeCap).programName = none ∧
    getP (setOnOff false mandatoryParams modeCap).parameters "onOffStatus" =
      some "0" ∧
    getP (setOnOff false mandatoryParams modeCap).parameters k =
      getP mandatoryParams k ∧
    ((getP (setOnOff false mandatoryParams modeCap).parameters k).isSome ↔
      (getP mandatoryParams k).isSome) := by
  refine ⟨rfl, rfl, by simp [setOnOff, sendCommand, setP, getP], ?_, ?_⟩
  · have hk' : ¬ ("onOffStatus" = k) := fun e => hk e.symm
    simp [setOnOff, sendCommand, setP, getP, hk']
  · have hk' : ¬ ("onOffStatus" = k) := fun e => hk e.symm
    simp [setOnOff, sendCommand, setP, getP, hk']

/-- Witness for C6 with a concrete mandatory set and the key
`machMode`. -/
theorem c6_stop_command_frame_witness :
    ("machMode" ≠ "onOffStatus") ∧
    (setOnOff false [("tempSel", "24")] (some "cool")).commandName =
      "stopProgram" ∧
    getP (setOnOff false [("tempSel", "24")] (some "cool")).parameters
      "onOffStatus" = some "0" ∧
    getP (setOnOff false [("tempSel", "24")] (some "cool")).parameters
      "machMode" = getP [("tempSel", "24")] "machMode" := by
  have h := c6_stop_command_frame [("tempSel", "24")] (some "cool")
    "machMode" (by decide)
  exact ⟨by decide, h.1, h.2.2.1, h.2.2.2.1⟩

/-- C5: a target-temperature request while anti-freeze mode is active
fails with the validation error and issues no network command at all. -/
theorem c5_antifreeze_temp_rejected (mandatoryParams : Params)
    (fanSpeedCap : Option String) (value : ℚ) :
    setTargetTemperature mandatoryParams (some "10_heating") fanSpeedCap
        value =
      .error "Temperature is fixed at 10°C in anti-freeze mode" ∧
    issuedCommands
      (setTargetTemperature mandatoryParams (some "10_heating") fanSpeedCap
        value) = [] := by
  exact ⟨rfl, rfl⟩

/-- C9: canonicalizing a MAC of the form `mac#suffix` (with no `#` in
`mac`) yields `mac`; canonicalizing a MAC containing no `#` is the
identity. -/
theorem c9_mac_canonicalization (pre suf s : String)
    (hpre : '#' ∉ pre.data) (hs : '#' ∉ s.data) :
    canonicalMac (pre ++ "#" ++ suf) = pre ∧ canonicalMac s = s := by
  constructor
  · cases pre with
    | mk l =>
      have hdata : ((String.mk l ++ "#" ++ suf)).data =
          l ++ '#' :: suf.data := by
        show (l ++ ['#']) ++ suf.data = l ++ '#' :: suf.data
        simp
      unfold canonicalMac
      rw [hdata, takeWhile_hash_append l suf.data hpre]
  · cases s with
    | mk l =>
      unfold canonicalMac
      rw [show (String.mk l).data = l from rfl, takeWhile_no_hash l hs]

/-- Witness for C9 on the concrete MAC `24-E1-24-AA#2024-01-01` and the
suffix-free MAC `24-E1-24-AA`. -/
theorem c9_mac_canonicalization_witness :
    ('#' ∉ ("24-E1-24-AA" : String).data) ∧
    canonicalMac ("24-E1-24-AA" ++ "#" ++ "2024-01-01") = "24-E1-24-AA" ∧
    canonicalMac "24-E1-24-AA" = "24-E1-24-AA" := by
  have h := c9_mac_canonicalization "24-E1-24-AA" "2024-01-01"
    "24-E1-24-AA" (by decide) (by decide)
  exact ⟨by decide, h.1, h.2⟩

/-- C10 counterexample: the claim says a non-null `refreshToken`
argument always replaces the stored refresh token, but `setTokens` tests
JS truthiness, so the non-null empty string leaves the stored token in
place. -/
theorem c10_counterexample :
    (some "" : Option String) ≠ none ∧
    (setTokens ⟨none, none, some "stored-refresh", none⟩
      "newAccess" "newId" (some "") 0).refreshToken = some "stored-refresh" ∧
    (setTokens ⟨none, none, some "stored-refresh", none⟩
      "newAccess" "newId" (some "") 0).refreshToken ≠ some "" := by
  decide

/-- C10 (amended): `setTokens` with a null/omitted — or empty, hence
JS-falsy — `refreshToken` leaves the stored refresh token unchanged
while overwriting the access and id tokens and setting the fixed 8-hour
expiry from now; a non-empty `refreshToken` replaces the stored one. -/
theorem c10_settokens_frame (s : TokenState) (a i r : String) (now : ℤ)
    (hr : r ≠ "") :
    (setTokens s a i none now).refreshToken = s.refreshToken ∧
    (setTokens s a i none now).accessToken = some a ∧
    (setTokens s a i none now).idToken = some i ∧
    (setTokens s a i none now).tokenExpiresAt =
      some (now + TOKEN_LIFETIME_MS) ∧
    (setTokens s a i (some "") now).refreshToken = s.refreshToken ∧
    (setTokens s a i (some r) now).refreshToken = some r ∧
    (setTokens s a i (some r) now).accessToken = some a ∧
    (setTokens s a i (some r) now).idToken = some i ∧
    (setTokens s a i (some r) now).tokenExpiresAt =
      some (now + TOKEN_LIFETIME_MS) := by
    refine ⟨rfl, rfl, rfl, rfl, rfl, ?_, rfl, rfl, rfl⟩
    simp [setTokens, jsTruthy, hr]

/-- Witness for C10 (amended) at a concrete token state. -/
theorem c10_settokens_frame_witness :
    ("rotated" ≠ "") ∧
    (setTokens ⟨some "oldA", some "oldI", some "oldR", some 1⟩
      "a2" "i2" none 5).refreshToken = some "oldR" ∧
    (setTokens ⟨some "oldA", some "oldI", some "oldR", some 1⟩
      "a2" "i2" none 5).tokenExpiresAt = some (5 + TOKEN_LIFETIME_MS) ∧
    (setTokens ⟨some "oldA", some "oldI", some "oldR", some 1⟩
      "a2" "i2" (some "rotated") 5).refreshToken = some "rotated" := by
  have h := c10_settokens_frame ⟨some "oldA", some "oldI", some "oldR", some 1⟩
    "a2" "i2" "rotated" 5 (by decide)
  exact ⟨by decide, h.1, h.2.2.2.1, h.2.2.2.2.2.1⟩

/-- Every program identifier in the table (and the fallback) is already
upper-case, so the upper-casing in `sendCommand` fixes it. -/
lemma program_identifier_upper (m : String) :
    jsToUpper ((HVAC_MODE_TO_PROGRAM m).getD "IOT_AUTO") =
      (HVAC_MODE_TO_PROGRAM m).getD "IOT_AUTO" := by
  unfold HVAC_MODE_TO_PROGRAM
  split_ifs <;> decide

/-- C3 counterexample: turning the device on via the on/off capability
(current mode `auto`, empty mandatory set) issues a `startProgram`
command whose parameters do not contain `10degreeHeatingStatus` at all,
so the anti-freeze flag is not set to `"0"` on that path. -/
theorem c3_counterexample :
    (setOnOff true [] (some "auto")).commandName = "startProgram" ∧
    getP (setOnOff true [] (some "auto")).parameters
      "10degreeHeatingStatus" = none ∧
    ¬ (getP (setOnOff true [] (some "auto")).parameters
      "10degreeHeatingStatus" = some "0") := by
  decide

/-- C3 (amended): every `startProgram` issued by the HVAC-mode path
carries `programName` equal to the (upper-cased, already upper-case)
program identifier for the target mode and sets `10degreeHeatingStatus`
to `"0"`, except anti-freeze which sets it to `"1"`; the power-on path
also carries the upper-cased program identifier for the current mode,
but it leaves the anti-freeze flag exactly as the mandatory parameter
set provides it rather than forcing it. -/
theorem c3_start_program_programs (value : String) (mandatoryParams : Params)
    (targetTempCap : Option ℚ) (fanSpeedCap modeCap : Option String)
    (hv : value ∈ ["auto", "cool", "heat", "dry", "fan_only"]) :
    (sentParam (setHvacMode value mandatoryParams targetTempCap fanSpeedCap)
        "10degreeHeatingStatus" = some "0" ∧
      ∃ c, setHvacMode value mandatoryParams targetTempCap fanSpeedCap =
          .ok c ∧
        c.commandName = "startProgram" ∧
        c.programName = some ((HVAC_MODE_TO_PROGRAM value).getD "IOT_AUTO")) ∧
    (jsToUpper ((HVAC_MODE_TO_PROGRAM value).getD "IOT_AUTO") =
      (HVAC_MODE_TO_PROGRAM value).getD "IOT_AUTO") ∧
    (sentParam (setHvacMode "10_heating" mandatoryParams targetTempCap
        fanSpeedCap) "10degreeHeatingStatus" = some "1" ∧
      ∃ c, setHvacMode "10_heating" mandatoryParams targetTempCap
          fanSpeedCap = .ok c ∧
        c.commandName = "startProgram" ∧
        c.programName = some "IOT_10_HEATING") ∧
    ((setOnOff true mandatoryParams modeCap).commandName = "startProgram" ∧
      (setOnOff true mandatoryParams modeCap).programName =
        some ((HVAC_MODE_TO_PROGRAM (jsOrString modeCap "auto")).getD
          "IOT_AUTO") ∧
      getP (setOnOff true mandatoryParams modeCap).parameters
        "10degreeHeatingStatus" =
        getP mandatoryParams "10degreeHeatingStatus") := by
  refine ⟨?_, program_identifier_upper value, ⟨rfl, _, rfl, rfl, rfl⟩,
    rfl, ?_, ?_⟩
  · fin_cases hv <;> exact ⟨rfl, _, rfl, rfl, rfl⟩
  · show (if ("startProgram" : String) = "startProgram" then
        some (jsToUpper ((HVAC_MODE_TO_PROGRAM
          (jsOrString modeCap "auto")).getD "IOT_AUTO"))
      else none) = _
    rw [if_pos rfl, program_identifier_upper]
  · simp [setOnOff, sendCommand, setP, getP]

/-- Witness for C3 (amended) at mode `cool` with a concrete mandatory
set. -/
theorem c3_start_program_programs_witness :
    (("cool" : String) ∈ ["auto", "cool", "heat", "dry", "fan_only"]) ∧
    sentParam (setHvacMode "cool" [("x", "y")] (some 22) (some "low"))
      "10degreeHeatingStatus" = some "0" ∧
    sentParam (setHvacMode "10_heating" [("x", "y")] (some 22) (some "low"))
      "10degreeHeatingStatus" = some "1" ∧
    getP (setOnOff true [("x", "y")] (some "cool")).parameters
      "10degreeHeatingStatus" = getP [("x", "y")] "10degreeHeatingStatus" := by
  have h := c3_start_program_programs "cool" [("x", "y")] (some 22)
    (some "low") (some "cool") (by decide)
  exact ⟨by decide, h.1.1, h.2.2.1.1, h.2.2.2.2.2⟩

/-- Rounding the clamp bound 16. -/
lemma jsRound_sixteen : jsRound (16 : ℚ) = 16 := by
  unfold jsRound; norm_num

/-- Rounding the clamp bound 30. -/
lemma jsRound_thirty : jsRound (30 : ℚ) = 30 := by
  unfold jsRound; norm_num

/-- C4: outside anti-freeze mode, the temperature sent as `tempSel` is
the requested integer value clamped to 16..30, that is
`min 30 (max 16 t)`, inside a `settings` command. -/
theorem c4_temp_clamp (mandatoryParams : Params)
    (modeCap fanSpeedCap : Option String) (t : ℤ)
    (hmode : jsOrString modeCap "auto" ≠ "10_heating") :
    sentParam (setTargetTemperature mandatoryParams modeCap fanSpeedCap
        (t : ℚ)) "tempSel" = some (toString (min 30 (max 16 t))) ∧
    ∃ c, setTargetTemperature mandatoryParams modeCap fanSpeedCap (t : ℚ) =
        .ok c ∧ c.commandName = "settings" := by
  constructor
  · by_cases h1 : t < 16
    · have q1 : (t : ℚ) < 16 := by exact_mod_cast h1
      have hm : min 30 (max 16 t) = 16 := by omega
      have h30 : ¬ ((16 : ℚ) > 30) := by norm_num
      simp [setTargetTemperature, hmode, sentParam, sendCommand, setP, getP,
        q1, h30, hm, jsRound_sixteen]
    · have q1 : ¬ ((t : ℚ) < 16) := by
        push_neg at h1 ⊢; exact_mod_cast h1
      by_cases h2 : t > 30
      · have q2 : (t : ℚ) > 30 := by exact_mod_cast h2
        have hm : min 30 (max 16 t) = 30 := by omega
        simp [setTargetTemperature, hmode, sentParam, sendCommand, setP,
          getP, q1, q2, hm, jsRound_thirty]
      · have q2 : ¬ ((t : ℚ) > 30) := by
          push_neg at h2 ⊢; exact_mod_cast h2
        have hm : min 30 (max 16 t) = t := by
          push_neg at h1 h2; omega
        simp [setTargetTemperature, hmode, sentParam, sendCommand, setP,
          getP, q1, q2, hm, jsRound_intCast]
  · rcases hres : setTargetTemperature mandatoryParams modeCap fanSpeedCap
        (t : ℚ) with e | c
    · exfalso
      simp [setTargetTemperature, hmode] at hres
    · refine ⟨c, rfl, ?_⟩
      simp [setTargetTemperature, hmode] at hres
      rw [← hres]
      rfl

/-- Witness for C4 at the spec's example inputs 5, 35 and 22 (mode
`cool`). -/
theorem c4_temp_clamp_witness :
    (jsOrString (some "cool") "auto" ≠ "10_heating") ∧
    sentParam (setTargetTemperature [] (some "cool") (some "low")
      ((5 : ℤ) : ℚ)) "tempSel" = some "16" ∧
    sentParam (setTargetTemperature [] (some "cool") (some "low")
      ((35 : ℤ) : ℚ)) "tempSel" = some "30" ∧
    sentParam (setTargetTemperature [] (some "cool") (some "low")
      ((22 : ℤ) : ℚ)) "tempSel" = some "22" := by
  have h5 := (c4_temp_clamp [] (some "cool") (some "low") 5 (by decide)).1
  have h35 := (c4_temp_clamp [] (some "cool") (some "low") 35 (by decide)).1
  have h22 := (c4_temp_clamp [] (some "cool") (some "low") 22 (by decide)).1
  refine ⟨by decide, ?_, ?_, ?_⟩
  · rw [h5]; decide
  · rw [h35]; decide
  · rw [h22]; decide

/-- C8: when the polled anti-freeze flag resolves to `1`, the reported
HVAC mode is anti-freeze regardless of the `machMode` wire value and the
reported target temperature is the fixed value 10 rather than `tempSel`;
conversely, setting anti-freeze sends both `machMode = "4"` (heat) and
the flag set to `"1"`. -/
theorem c8_antifreeze_mapping :
    (∀ (st : PolledState) (prev : Option ℤ) (w : WireVal),
      extractNum st.tenDegreeHeatingStatus = some 1 →
      st.machMode = some w →
      reportedHvacMode st = some "10_heating" ∧
      reportedTargetTemperature st prev = some 10) ∧
    (∀ (mandatoryParams : Params) (targetTempCap : Option ℚ)
        (fanSpeedCap : Option String),
      sentParam (setHvacMode "10_heating" mandatoryParams targetTempCap
        fanSpeedCap) "machMode" = some "4" ∧
      sentParam (setHvacMode "10_heating" mandatoryParams targetTempCap
        fanSpeedCap) "10degreeHeatingStatus" = some "1" ∧
      ∃ c, setHvacMode "10_heating" mandatoryParams targetTempCap
        fanSpeedCap = .ok c ∧ c.commandName = "startProgram") := by
  constructor
  · intro st prev w hflag hmach
    have h10 : is10Heating st = true := by simp [is10Heating, hflag]
    constructor
    · simp [reportedHvacMode, hmach, h10]
    · simp [reportedTargetTemperature, h10]
  · intro mandatoryParams targetTempCap fanSpeedCap
    exact ⟨rfl, rfl, _, rfl, rfl⟩

/-- Witness for C8 at a polled state whose `machMode` is `2` (dry) but
whose anti-freeze flag is `1`, and a concrete anti-freeze command. -/
theorem c8_antifreeze_mapping_witness :
    extractNum (some (WireVal.bare "1")) = some 1 ∧
    reportedHvacMode
      ⟨some (.bare "2"), some (.bare "25"), some (.bare "1")⟩ =
      some "10_heating" ∧
    reportedTargetTemperature
      ⟨some (.bare "2"), some (.bare "25"), some (.bare "1")⟩ (some 22) =
      some 10 ∧
    sentParam (setHvacMode "10_heating" [] (some 21) (some "low"))
      "machMode" = some "4" := by
  have h := (c8_antifreeze_mapping.1
    ⟨some (.bare "2"), some (.bare "25"), some (.bare "1")⟩ (some 22)
    (.bare "2") (by decide) rfl)
  exact ⟨by decide, h.1, h.2,
    (c8_antifreeze_mapping.2 [] (some 21) (some "low")).1⟩

/-- A 2xx response is not an authorization failure. -/
lemma responseOk_not_authFailure (r : Response) (h : responseOk r = true) :
    isAuthFailure r = false := by
  simp [responseOk] at h
  simp [isAuthFailure]
  omega

/-- C2: `_apiRequest` refreshes once and retries exactly once on a first
401/403; a second 401/403 is terminal and marks the session
unauthenticated; a refresh failure is terminal and marks the session
unauthenticated; any other non-success status surfaces an error with the
response status and body; a successful response returns its parsed
JSON. -/
theorem c2_api_request_retry :
    (∀ (a : Bool) (r1 r2 : Response) (msg : String),
      isAuthFailure r1 = true →
      apiRequest a r1 false msg r2 =
        { outcome := .refreshError msg, fetches := 1, refreshes := 1,
          authenticated := false }) ∧
    (∀ (a : Bool) (r1 r2 : Response) (msg : String),
      isAuthFailure r1 = true → isAuthFailure r2 = true →
      apiRequest a r1 true msg r2 =
        { outcome := .authFailedAfterRefresh r2.status r2.body,
          fetches := 2, refreshes := 1, authenticated := false }) ∧
    (∀ (a : Bool) (r1 r2 : Response) (msg : String),
      isAuthFailure r1 = true → isAuthFailure r2 = false →
      responseOk r2 = false →
      apiRequest a r1 true msg r2 =
        { outcome := .apiError r2.status r2.body, fetches := 2,
          refreshes := 1, authenticated := a }) ∧
    (∀ (a : Bool) (r1 r2 : Response) (msg : String),
      isAuthFailure r1 = true → responseOk r2 = true →
      apiRequest a r1 true msg r2 =
        { outcome := .success r2.json, fetches := 2, refreshes := 1,
          authenticated := a }) ∧
    (∀ (a : Bool) (r1 r2 : Response) (rOk : Bool) (msg : String),
      isAuthFailure r1 = false → responseOk r1 = false →
      apiRequest a r1 rOk msg r2 =
        { outcome := .apiError r1.status r1.body, fetches := 1,
          refreshes := 0, authenticated := a }) ∧
    (∀ (a : Bool) (r1 r2 : Response) (rOk : Bool) (msg : String),
      responseOk r1 = true →
      apiRequest a r1 rOk msg r2 =
        { outcome := .success r1.json, fetches := 1, refreshes := 0,
          authenticated := a }) := by
  refine ⟨?_, ?_, ?_, ?_, ?_, ?_⟩
  · intro a r1 r2 msg h1
    simp [apiRequest, h1]
  · intro a r1 r2 msg h1 h2
    simp [apiRequest, h1, h2]
  · intro a r1 r2 msg h1 h2 hok
    simp [apiRequest, h1, h2, hok]
  · intro a r1 r2 msg h1 hok
    simp [apiRequest, h1, hok, responseOk_not_authFailure r2 hok]
  · intro a r1 r2 rOk msg h1 hok
    simp [apiRequest, h1, hok]
  · intro a r1 r2 rOk msg hok
    simp [apiRequest, hok, responseOk_not_authFailure r1 hok]

/-- Witness for C2 on concrete responses: 401 then 403 is terminal, 401
then 200 succeeds after one refresh and one retry, and a 500 surfaces
the status and body without a refresh. -/
theorem c2_api_request_retry_witness :
    isAuthFailure ⟨401, "denied", ""⟩ = true ∧
    responseOk ⟨500, "oops", ""⟩ = false ∧
    apiRequest true ⟨401, "denied", ""⟩ true "m" ⟨403, "denied2", ""⟩ =
      { outcome := .authFailedAfterRefresh 403 "denied2", fetches := 2,
        refreshes := 1, authenticated := false } ∧
    apiRequest true ⟨401, "denied", ""⟩ true "m" ⟨200, "", "payload"⟩ =
      { outcome := .success "payload", fetches := 2, refreshes := 1,
        authenticated := true } ∧
    apiRequest true ⟨500, "oops", ""⟩ true "m" ⟨200, "", ""⟩ =
      { outcome := .apiError 500 "oops", fetches := 1, refreshes := 0,
        authenticated := true } := by
  refine ⟨by decide, by decide, ?_, ?_, ?_⟩
  · exact c2_api_request_retry.2.1 true ⟨401, "denied", ""⟩
      ⟨403, "denied2", ""⟩ "m" (by decide) (by decide)
  · exact c2_api_request_retry.2.2.2.1 true ⟨401, "denied", ""⟩
      ⟨200, "", "payload"⟩ "m" (by decide) (by decide)
  · exact c2_api_request_retry.2.2.2.2.1 true ⟨500, "oops", ""⟩
      ⟨200, "", ""⟩ true "m" (by decide) (by decide)

/-- C1: the refresh is single-flight. While a refresh is in flight,
any number of concurrent `_safeRefresh` callers receive the same
in-flight promise and no second refresh operation (hence no second
network exchange) starts; `n ≥ 1` callers arriving with no refresh in
flight start exactly one refresh operation, which performs exactly one
network refresh exchange and one token-exchange call; the guard is
cleared when the refresh settles — also on failure — so a later call
starts a fresh refresh operation. -/
theorem c1_refresh_single_flight :
    (∀ (s : RefreshGuardState) (p n : ℕ),
      s.refreshPromise = some p →
      safeRefreshCalls s n = (s, List.replicate n p)) ∧
    (∀ (s : RefreshGuardState) (n : ℕ),
      s.refreshPromise = none → 1 ≤ n →
      (safeRefreshCalls s n).1.started = s.started + 1 ∧
      (safeRefreshCalls s n).2 = List.replicate n s.nextId) ∧
    ((refreshAccessTokenCalls .success).count .refreshExchange = 1 ∧
      (refreshAccessTokenCalls .success).count .tokenExchange = 1) ∧
    (∀ (s : RefreshGuardState) (ok : Bool),
      (settleRefresh s ok).refreshPromise = none) ∧
    (∀ (s : RefreshGuardState) (ok : Bool),
      (safeRefresh (settleRefresh s ok)).1.started = s.started + 1 ∧
      (safeRefresh (settleRefresh s ok)).1.refreshPromise =
        some s.nextId) := by
  refine ⟨safeRefreshCalls_inflight, ?_, by decide, fun s ok => rfl, ?_⟩
  · intro s n hnone hn
    obtain ⟨m, rfl⟩ : ∃ m, n = m + 1 := ⟨n - 1, by omega⟩
    have hstep : safeRefresh s =
        ({ refreshPromise := some s.nextId, nextId := s.nextId + 1,
           started := s.started + 1 }, s.nextId) := by
      simp [safeRefresh, hnone]
    have hrest := safeRefreshCalls_inflight
      { refreshPromise := some s.nextId, nextId := s.nextId + 1,
        started := s.started + 1 } s.nextId m rfl
    constructor
    · simp [safeRefreshCalls, hstep, hrest]
    · simp [safeRefreshCalls, hstep, hrest, List.replicate]
  · intro s ok
    exact ⟨rfl, rfl⟩

/-- Witness for C1: three callers joining an in-flight refresh all get
promise 7 and start nothing; two callers with no refresh in flight start
exactly one; settling (with failure) clears the guard and a later call
starts refresh operation number 8. -/
theorem c1_refresh_single_flight_witness :
    safeRefreshCalls ⟨some 7, 8, 1⟩ 3 = (⟨some 7, 8, 1⟩, [7, 7, 7]) ∧
    (safeRefreshCalls ⟨none, 5, 0⟩ 2).1.started = 1 ∧
    (safeRefreshCalls ⟨none, 5, 0⟩ 2).2 = [5, 5] ∧
    (settleRefresh ⟨some 7, 8, 1⟩ false).refreshPromise = none ∧
    (safeRefresh (settleRefresh ⟨some 7, 8, 1⟩ false)).1.refreshPromise =
      some 8 := by
  have h1 := c1_refresh_single_flight.1 ⟨some 7, 8, 1⟩ 7 3 rfl
  have h2 := c1_refresh_single_flight.2.1 ⟨none, 5, 0⟩ 2 rfl (by decide)
  have h3 := c1_refresh_single_flight.2.2.2.1 ⟨some 7, 8, 1⟩ false
  have h4 := c1_refresh_single_flight.2.2.2.2 ⟨some 7, 8, 1⟩ false
  refine ⟨?_, ?_, ?_, h3, h4.2⟩
  · rw [h1]; rfl
  · rw [h2.1]
  · rw [h2.2]; rfl
